import Mathlib

/-!
Verification of the risks API risk-calculation and validation subsystem.

Shallow embedding of the repository sources:
  validators/CalculateRisk.py  (BaseValidator and the three risk validators)
  app/routes.py                (token-guarded routes and the batch risk pipeline)
  app/auth.py                  (token_required decorator)
  app/utils.py                 (check_patient, add_risk, check_allowed_risks)

Python runtime values are modelled by the inductive PyVal; a request item
(a JSON object) is an association list of string keys to PyVal.  Fallible
Python code is modelled with Except; an uncaught Python exception is a
designed constructor of PyErr.  Floating point transcendentals of the score
formula are modelled by abstract function parameters over the rationals.
-/

namespace RisksAPI

/-- A Python runtime value as it can appear in a request item or in the
validated data map: a string, an int, a bool, a float, None, a
datetime.date object, or the (Response, 500) tuple that check_patient
returns on a database error. -/
inductive PyVal where
  | pstr (s : String)
  | pint (n : ℤ)
  | pbool (b : Bool)
  | pfloat (q : ℚ)
  | pnone
  | pdate (y m d : ℤ)
  | perrPair (msg : String) (code : ℕ)
deriving DecidableEq, Repr

/-- An uncaught Python exception kind relevant to this code base. -/
inductive PyErr where
  | typeError
  | keyError
  | zeroDivisionError
deriving DecidableEq, Repr

/-- A Python dict with string keys, as an association list. -/
abbrev PyDict := List (String × PyVal)

/-- dict.get: first binding of the key, None (here: none) when absent. -/
def pget : PyDict → String → Option PyVal
  | [], _ => none
  | (k, v) :: t, key => if k = key then some v else pget t key

/-- type(x).__name__ for the modelled values (None gives NoneType). -/
def typeName : Option PyVal → String
  | none => "NoneType"
  | some (.pstr _) => "str"
  | some (.pint _) => "int"
  | some (.pbool _) => "bool"
  | some (.pfloat _) => "float"
  | some .pnone => "NoneType"
  | some (.pdate _ _ _) => "date"
  | some (.perrPair _ _) => "tuple"

/-- isinstance(v, int): Python bools are ints; the int value of the object. -/
def asPyInt : PyVal → Option ℤ
  | .pint n => some n
  | .pbool b => some (if b then 1 else 0)
  | _ => none

/-- Python truthiness of a modelled value. -/
def pyTruthy : PyVal → Bool
  | .pbool b => b
  | .pint n => decide (n ≠ 0)
  | .pstr s => decide (s ≠ "")
  | .pfloat q => decide (q ≠ 0)
  | .pnone => false
  | .pdate _ _ _ => true
  | .perrPair _ _ => true

/-- str(v) for the string values interpolated into messages. -/
def pyStrOf : PyVal → String
  | .pstr s => s
  | _ => ""

/-! ### datetime.strptime(s, s!"%Y-%m-%d") model -/

/-- Split a character list on the minus sign (separator of the date format). -/
def splitOnDash : List Char → List (List Char)
  | [] => [[]]
  | c :: rest =>
    if c = '-' then [] :: splitOnDash rest
    else
      match splitOnDash rest with
      | [] => [[c]]
      | g :: gs => (c :: g) :: gs

/-- Numeric value of a digit string. -/
def digitsToNat (cs : List Char) : ℕ :=
  cs.foldl (fun a c => 10 * a + (c.toNat - 48)) 0

/-- Gregorian leap-year rule used by datetime. -/
def isLeap (y : ℕ) : Bool :=
  (y % 4 = 0 && y % 100 ≠ 0) || y % 400 = 0

/-- Days in a month, as validated by datetime.strptime. -/
def daysInMonth (y m : ℕ) : ℕ :=
  if m = 2 then (if isLeap y then 29 else 28)
  else if m = 4 ∨ m = 6 ∨ m = 9 ∨ m = 11 then 30
  else 31

/-- strptime with format year-month-day: three dash-separated digit groups
(year exactly four digits, month and day one or two), month 1..12, day
valid for the month, year at least 1; anything else raises ValueError
(none). -/
def parseDate (s : String) : Option (ℤ × ℤ × ℤ) :=
  match splitOnDash s.data with
  | [ys, ms, ds] =>
    if ys.length = 4 ∧ ys.all Char.isDigit ∧
       ms ≠ [] ∧ ms.length ≤ 2 ∧ ms.all Char.isDigit ∧
       ds ≠ [] ∧ ds.length ≤ 2 ∧ ds.all Char.isDigit then
      let y := digitsToNat ys
      let m := digitsToNat ms
      let d := digitsToNat ds
      if 1 ≤ y ∧ y ≤ 9999 ∧ 1 ≤ m ∧ m ≤ 12 ∧ 1 ≤ d ∧ d ≤ daysInMonth y m then
        some ((y : ℤ), (m : ℤ), (d : ℤ))
      else none
    else none
  | _ => none

/-! ### BaseValidator.check_types (validators/CalculateRisk.py lines 71-118) -/

def msgNameType (x : Option PyVal) : String :=
  "The type of name must be a string, not a " ++ typeName x ++ "."

def msgBirthdayType (x : Option PyVal) : String :=
  "The type of birthday must be a string, not a " ++ typeName x ++ "."

def msgBirthdayFormat : String :=
  "The birthday must be in the format YYYY-MM-DD. Make sure month and day are valid values."

def msgSnilsType (x : Option PyVal) : String :=
  "The type of snils must be a string, not " ++ typeName x

def msgGenderType (x : Option PyVal) : String :=
  "The type of gender must be a string, not " ++ typeName x

def msgGenderValue : String := "The gender must be a male or female"

def msgReturnAnswerType (x : Option PyVal) : String :=
  "The type of return_answer must be a bool, not " ++ typeName x

/-- The validated base map returned by BaseValidator.check_types on success:
keys name, birthday (a date object), snils, gender, return_answer. -/
def baseMap (name : String) (bd : ℤ × ℤ × ℤ) (snils gender : String) (ra : Bool) : PyDict :=
  [("name", .pstr name), ("birthday", .pdate bd.1 bd.2.1 bd.2.2),
   ("snils", .pstr snils), ("gender", .pstr gender), ("return_answer", .pbool ra)]

/-- BaseValidator.check_types: checks name is a str, birthday is a str that
parses as a date, snils is a str, gender is the str male or female, and
return_answer (defaulting to False) is a bool, in that order, returning the
first failing check error; on success returns the validated map. -/
def check_types_base (item : PyDict) : Except String PyDict :=
  match pget item "name" with
  | some (.pstr name) =>
    match pget item "birthday" with
    | some (.pstr bds) =>
      match parseDate bds with
      | some bd =>
        match pget item "snils" with
        | some (.pstr snils) =>
          match pget item "gender" with
          | some (.pstr gender) =>
            if gender = "male" ∨ gender = "female" then
              match pget item "return_answer" with
              | none => .ok (baseMap name bd snils gender false)
              | some (.pbool ra) => .ok (baseMap name bd snils gender ra)
              | x => .error (msgReturnAnswerType x)
            else .error msgGenderValue
          | x => .error (msgGenderType x)
        | x => .error (msgSnilsType x)
      | none => .error msgBirthdayFormat
    | x => .error (msgBirthdayType x)
  | x => .error (msgNameType x)

/-! ### Per-risk-type validators (validators/CalculateRisk.py) -/

def msgSmokingType (x : Option PyVal) : String :=
  "The type of smoking must be an integer, not a " ++ typeName x

def msgSmokingValue : String := "The smoking must be a 0 or 1"

def msgBloodPressureType (x : Option PyVal) : String :=
  "The type of blood_pressure must be an integer, not " ++ typeName x

def msgCholesterolType (x : Option PyVal) : String :=
  "The type of cholesterol must be a float, not " ++ typeName x

def msgDiastolicType (x : Option PyVal) : String :=
  "The type of diastolic_bp must be an integer, not " ++ typeName x

def msgPulseType (x : Option PyVal) : String :=
  "The type of pulse must be an integer, not " ++ typeName x

/-- Note: source line 440 interpolates type(diastolic_bp).__name__ into
the systolic_bp message; the argument is therefore the diastolic value. -/
def msgSystolicType (x : Option PyVal) : String :=
  "The type of systolic_bp must be an integer, not " ++ typeName x

/-- item.get(key) followed by an isinstance(..., int) check; the error side
carries the offending value for the message. -/
def pyGetInt (item : PyDict) (key : String) : Except (Option PyVal) ℤ :=
  match pget item key with
  | some v =>
    match asPyInt v with
    | some n => .ok n
    | none => .error (some v)
  | none => .error none

/-- ScoreRiskValidator.check_types (lines 237-279): base checks, then
smoking an int in 0..1, blood_pressure an int, cholesterol a float. -/
def check_types_score (item : PyDict) : Except String PyDict :=
  (check_types_base item).bind fun base =>
    match pyGetInt item "smoking" with
    | .error x => .error (msgSmokingType x)
    | .ok sm =>
      if sm = 0 ∨ sm = 1 then
        match pyGetInt item "blood_pressure" with
        | .error x => .error (msgBloodPressureType x)
        | .ok bp =>
          match pget item "cholesterol" with
          | some (.pfloat ch) =>
            .ok (base ++ [("smoking", .pint sm), ("blood_pressure", .pint bp),
                          ("cholesterol", .pfloat ch)])
          | x => .error (msgCholesterolType x)
      else .error msgSmokingValue

/-- KerdoIndexValidator.check_types (lines 323-358): base checks, then
diastolic_bp and pulse ints. -/
def check_types_kerdo (item : PyDict) : Except String PyDict :=
  (check_types_base item).bind fun base =>
    match pyGetInt item "diastolic_bp" with
    | .error x => .error (msgDiastolicType x)
    | .ok d =>
      match pyGetInt item "pulse" with
      | .error x => .error (msgPulseType x)
      | .ok p => .ok (base ++ [("diastolic_bp", .pint d), ("pulse", .pint p)])

/-- KvaasIndexValidator.check_types (lines 403-444): base checks, then
diastolic_bp, pulse and systolic_bp ints. -/
def check_types_kvaas (item : PyDict) : Except String PyDict :=
  (check_types_base item).bind fun base =>
    match pyGetInt item "diastolic_bp" with
    | .error x => .error (msgDiastolicType x)
    | .ok d =>
      match pyGetInt item "pulse" with
      | .error x => .error (msgPulseType x)
      | .ok p =>
        match pyGetInt item "systolic_bp" with
        | .error _ => .error (msgSystolicType (pget item "diastolic_bp"))
        | .ok s =>
          .ok (base ++ [("diastolic_bp", .pint d), ("pulse", .pint p),
                        ("systolic_bp", .pint s)])

/-- The three registered risk types (the type_risks dict keys). -/
inductive RiskKind where
  | score
  | kerdo
  | kvaas
deriving DecidableEq, Repr

def riskNameOf : RiskKind → String
  | .score => "score"
  | .kerdo => "kerdo"
  | .kvaas => "kvaas"

/-- Lookup in the type_risks registry by risk-type name. -/
def kindOf (t : String) : Option RiskKind :=
  if t = "score" then some .score
  else if t = "kerdo" then some .kerdo
  else if t = "kvaas" then some .kvaas
  else none

/-- required_fields class attribute of each validator. -/
def requiredFields : RiskKind → List String
  | .score => ["name", "birthday", "snils", "gender", "smoking", "blood_pressure",
               "cholesterol", "type"]
  | .kerdo => ["name", "birthday", "snils", "gender", "diastolic_bp", "pulse", "type"]
  | .kvaas => ["name", "birthday", "snils", "gender", "diastolic_bp", "systolic_bp",
               "pulse", "type"]

/-- correct_len class attribute of each validator. -/
def correctLen : RiskKind → ℕ
  | .score => 9
  | .kerdo => 8
  | .kvaas => 9

/-- The risk-type-specific columns of research_list beyond the base ones. -/
def specificCols : RiskKind → List String
  | .score => ["smoking", "blood_pressure", "cholesterol"]
  | .kerdo => ["diastolic_bp", "pulse"]
  | .kvaas => ["diastolic_bp", "systolic_bp", "pulse"]

/-- Dispatch of check_types by risk kind. -/
def check_types_of : RiskKind → PyDict → Except String PyDict
  | .score => check_types_score
  | .kerdo => check_types_kerdo
  | .kvaas => check_types_kvaas

/-- BaseValidator.validate: every required field is a key of the item. -/
def validateFields (k : RiskKind) (item : PyDict) : Bool :=
  (requiredFields k).all fun f => (pget item f).isSome

/-- BaseValidator.len_data_items: item carries no more than correct_len keys. -/
def lenDataItemsOk (k : RiskKind) (item : PyDict) : Bool :=
  decide (item.length ≤ correctLen k)

/-! ### The calculators -/

/-- Python round(x, 2): round half to even at two decimals (exact model of
the builtin rounding rule on the rational value). -/
def roundHalfEven (q : ℚ) : ℤ :=
  let n := ⌊q⌋
  let f := q - (n : ℚ)
  if f < 1/2 then n
  else if 1/2 < f then n + 1
  else if n % 2 = 0 then n else n + 1

def round2 (q : ℚ) : ℚ := (roundHalfEven (100 * q) : ℚ) / 100

/-- KerdoIndexValidator.calculate_risk (lines 308-320): 100 * (1 - d / p);
a zero pulse raises ZeroDivisionError. -/
def calculate_risk_kerdo (diastolic_bp pulse : ℤ) : Except PyErr ℚ :=
  if pulse = 0 then .error .zeroDivisionError
  else .ok (100 * (1 - (diastolic_bp : ℚ) / (pulse : ℚ)))

/-- KvaasIndexValidator.calculate_risk (lines 387-400): 10 * p / (s - d);
equal pressures raise ZeroDivisionError. -/
def calculate_risk_kvaas (diastolic_bp systolic_bp pulse : ℤ) : Except PyErr ℚ :=
  if systolic_bp - diastolic_bp = 0 then .error .zeroDivisionError
  else .ok (10 * (pulse : ℚ) / ((systolic_bp : ℚ) - (diastolic_bp : ℚ)))

/-- str.lower() (ASCII-relevant part used on the gender values). -/
def pyLower (s : String) : String := ⟨s.data.map Char.toLower⟩

/-- Lexicographic comparison of (month, day) pairs, as Python tuple less-than. -/
def monthDayLt (m1 d1 m2 d2 : ℤ) : Bool :=
  decide (m1 < m2 ∨ (m1 = m2 ∧ d1 < d2))

/-- Age computation of ScoreRiskValidator.calculate_risk line 191: year
difference, minus one when the birthday has not yet occurred this year. -/
def ageAt (ty tm td by_ bm bd : ℤ) : ℤ :=
  ty - by_ - (if monthDayLt tm td bm bd then 1 else 0)

/-- ScoreRiskValidator.calculate_risk (lines 176-235), with the floating
point exponential and power functions abstracted as parameters fexp and
fpow over the rationals (the formula structure is exactly the source). -/
def calculate_risk_score (fexp : ℚ → ℚ) (fpow : ℚ → ℚ → ℚ)
    (ty tm td : ℤ) (bdy bdm bdd : ℤ) (gender : String)
    (smoking blood_pressure : ℤ) (cholesterol : ℚ) : ℚ :=
  let age : ℤ := ageAt ty tm td bdy bdm bdd
  let alpha : ℚ := if pyLower gender = "male" then -21.0 else -28.7
  let p : ℚ := if pyLower gender = "male" then 4.62 else 6.23
  let alpha2 : ℚ := if pyLower gender = "male" then -25.7 else -30.0
  let p2 : ℚ := if pyLower gender = "male" then 5.47 else 6.42
  let cs0 := fexp (-(fexp alpha) * fpow ((age : ℚ) - 20) p)
  let cs10 := fexp (-(fexp alpha) * fpow ((age : ℚ) - 10) p)
  let ncs0 := fexp (-(fexp alpha2) * fpow ((age : ℚ) - 20) p2)
  let ncs10 := fexp (-(fexp alpha2) * fpow ((age : ℚ) - 10) p2)
  let bsmC : ℚ := if smoking ≠ 0 then 0.71 else 0
  let wc := 0.24 * (cholesterol - 6.0) + 0.018 * ((blood_pressure : ℚ) - 120) + bsmC
  let bsmN : ℚ := if smoking ≠ 0 then 0.63 else 0
  let wnc := 0.02 * (cholesterol - 6.0) + 0.022 * ((blood_pressure : ℚ) - 120) + bsmN
  let cs := fpow cs0 (fexp wc)
  let cs1 := fpow cs10 (fexp wc) / cs
  let ncs := fpow ncs0 (fexp wnc)
  let ncs1 := fpow ncs10 (fexp wnc) / ncs
  let r := 1.0 - cs1
  let r1 := 1.0 - ncs1
  round2 (100.0 * (r + r1))

/-! ### Database model (app/models.py tables, accessed through raw SQL) -/

/-- A row of the patients table. -/
structure PatientRow where
  id : ℤ
  name : PyVal
  birthday : PyVal
  gender : PyVal
  snils : PyVal
  idFirm : ℤ
deriving DecidableEq, Repr

/-- A row of the research table: the id columns, the submission timestamp,
and the remaining columns (patient snapshot and measurements) as a map. -/
structure ResearchRow where
  idFirm : ℤ
  idType : ℤ
  idPatient : PyVal
  date : ℤ
  payload : PyDict
deriving DecidableEq, Repr

/-- A row of the risks table. -/
structure RiskRow where
  idFirm : ℤ
  idType : ℤ
  idPatient : PyVal
  name : PyVal
  birthday : PyVal
  risk : ℚ
  date : ℤ
deriving DecidableEq, Repr

/-- The relational store. -/
structure Db where
  patients : List PatientRow
  research : List ResearchRow
  risks : List RiskRow
deriving DecidableEq, Repr

/-- SELECT count from patients WHERE snils and id_firm match. -/
def countPatients (rows : List PatientRow) (snils : PyVal) (idFirm : ℤ) : ℕ :=
  (rows.filter fun r => decide (r.snils = snils ∧ r.idFirm = idFirm)).length

/-- SELECT id FROM patients WHERE snils and id_firm match, scalar(): the id
of the first matching row, none when there is no match. -/
def lookupPatientId (rows : List PatientRow) (snils : PyVal) (idFirm : ℤ) : Option ℤ :=
  ((rows.filter fun r => decide (r.snils = snils ∧ r.idFirm = idFirm)).map
    fun r => r.id).head?

/-- The autoincrement id the store would assign to a new patient row. -/
def nextPatientId (rows : List PatientRow) : ℤ :=
  (rows.foldr (fun r m => max r.id m) 0) + 1

/-- check_patient (app/utils.py lines 13-47), body already entered with its
bound arguments: on a database error the exception is caught and a
(jsonify error, 500) pair is returned in place of an id; otherwise count
the matching rows, insert the patient when absent, and return the id found
by the follow-up select (None when the select finds nothing). -/
def check_patient (dbFails : Bool) (db : Db) (idFirm : ℤ)
    (snils user birthday gender : PyVal) : PyVal × Db :=
  if dbFails then (.perrPair "Internal server error" 500, db)
  else
    let db1 :=
      if countPatients db.patients snils idFirm = 0 then
        { db with patients := db.patients ++
            [⟨nextPatientId db.patients, user, birthday, gender, snils, idFirm⟩] }
      else db
    (match lookupPatientId db1.patients snils idFirm with
     | some i => .pint i
     | none => .pnone, db1)

/-- add_risk (app/utils.py lines 50-78), body with bound arguments: a
database error is caught inside the function and only logged, so the
caller always continues; on success the risk row is inserted. -/
def add_risk (dbFails : Bool) (db : Db) (row : RiskRow) : Db :=
  if dbFails then db else { db with risks := db.risks ++ [row] }

/-- The research row built by BaseValidator.add_research from the
research_list columns: id columns, timestamp, then the base snapshot and
the risk-type-specific measurement columns taken from the validated map. -/
def mkResearchRow (firmId idType : ℤ) (nowTs : ℤ) (k : RiskKind) (pid : PyVal)
    (res : PyDict) : ResearchRow :=
  ⟨firmId, idType, pid, nowTs,
   (["name", "birthday", "gender"] ++ specificCols k).filterMap
     fun c => (pget res c).map fun v => (c, v)⟩

/-- The add_research call guarded by try/except in routes.py lines 358-364:
a failure (or the KeyError of the success log reading the user key) is
caught and logged, and the pipeline continues either way. -/
def add_research_step (dbFails : Bool) (db : Db) (row : ResearchRow) : Db :=
  if dbFails then db else { db with research := db.research ++ [row] }

/-! ### The batch risk pipeline (app/routes.py risk_calculated, lines 245-384) -/

/-- The ambient request context: the tenant and permitted risk ids passed by
token_required, the risk-name-to-id mapping of check_allowed_risks, the
current date and timestamp, the abstract float transcendentals for the
score formula, and the failure behaviour of the three database writes. -/
structure Ctx where
  firmId : ℤ
  typeRisk : List ℤ
  riskIndex : String → ℤ
  todayY : ℤ
  todayM : ℤ
  todayD : ℤ
  nowTs : ℤ
  fexp : ℚ → ℚ
  fpow : ℚ → ℚ → ℚ
  dbPatientFails : Bool
  dbResearchFails : Bool
  dbRiskFails : Bool

/-- Outcome of one item of the batch: a per-item success message appended
to the result list, an immediate error response returned for the whole
batch, or an uncaught Python exception. -/
inductive ItemRes where
  | proceed (msg : String) (db : Db)
  | abort (code : ℕ) (msg : String) (db : Db)
  | fault (e : PyErr) (db : Db)
deriving DecidableEq, Repr

/-- validator.calculate_risk(**res) for the resolved kind, reading the
arguments the call binds from the validated map res. -/
def calcRiskFromRes (ctx : Ctx) (k : RiskKind) (res : PyDict) : Except PyErr ℚ :=
  match k with
  | .kerdo =>
    match pget res "diastolic_bp", pget res "pulse" with
    | some (.pint d), some (.pint p) => calculate_risk_kerdo d p
    | _, _ => .error .typeError
  | .kvaas =>
    match pget res "diastolic_bp", pget res "systolic_bp", pget res "pulse" with
    | some (.pint d), some (.pint s), some (.pint p) => calculate_risk_kvaas d s p
    | _, _, _ => .error .typeError
  | .score =>
    match pget res "birthday", pget res "gender", pget res "smoking",
          pget res "blood_pressure", pget res "cholesterol" with
    | some (.pdate by_ bm bd), some (.pstr g), some (.pint sm), some (.pint bp),
      some (.pfloat ch) =>
      .ok (calculate_risk_score ctx.fexp ctx.fpow ctx.todayY ctx.todayM ctx.todayD
            by_ bm bd g sm bp ch)
    | _, _, _, _, _ => .error .typeError

/-- The decimal rendering of the rounded risk interpolated into the success
message (the repr of a two-decimal float value). -/
def floatRepr (q : ℚ) : String :=
  let sgn := if q < 0 then "-" else ""
  let a := if q < 0 then -q else q
  let ip : ℤ := ⌊a⌋
  let c : ℤ := ⌊a * 100⌋ - 100 * ip
  sgn ++ toString ip ++ "." ++
    (if c = 0 then "0"
     else if c % 10 = 0 then toString (c / 10)
     else if c < 10 then "0" ++ toString c
     else toString c)

/-- Steps of routes.py lines 349-384, entered with the value the
check_patient call produced as id_patient: resolve the numeric risk-type
id, attempt the research insert (continuing on failure), compute and round
the risk inside try/except (any exception becomes a designed 500 response
aborting the batch), call add_risk (whose binding needs the user and
birthday keys and raises TypeError when user is absent; database failures
inside add_risk are swallowed), then build the per-item message selected
by return_answer. -/
def afterPatient (ctx : Ctx) (db : Db) (k : RiskKind) (t : String)
    (res : PyDict) (pid : PyVal) : ItemRes :=
  let idType := ctx.riskIndex t
  let db1 := add_research_step ctx.dbResearchFails db
    (mkResearchRow ctx.firmId idType ctx.nowTs k pid res)
  match calcRiskFromRes ctx k res with
  | .error _ => .abort 500 "Internal server error" db1
  | .ok q =>
    let risk := round2 q
    match pget res "user", pget res "birthday" with
    | some u, some b =>
      let db2 := add_risk ctx.dbRiskFails db1 ⟨ctx.firmId, idType, pid, u, b, risk, ctx.nowTs⟩
      match pget res "return_answer", pget res "snils" with
      | some ra, some sn =>
        if pyTruthy ra then
          .proceed ("risk_score for user snils " ++ pyStrOf sn ++ " = " ++ floatRepr risk) db2
        else
          .proceed ("data for user snils " ++ pyStrOf sn ++ " has been sent successfully") db2
      | _, _ => .fault .keyError db2
    | _, _ => .fault .typeError db1

/-- The check_patient(firm_id, **res) call of routes.py line 347 followed by
the post-patient steps: the keyword binding of the call requires the snils,
user, birthday and gender keys of the validated map res and raises
TypeError when one is absent (the validated map in fact always carries
name, never user). -/
def patientCallStep (ctx : Ctx) (db : Db) (k : RiskKind) (t : String)
    (res : PyDict) : ItemRes :=
  match pget res "snils", pget res "user", pget res "birthday", pget res "gender" with
  | some s, some u, some b, some g =>
    let pr := check_patient ctx.dbPatientFails db ctx.firmId s u b g
    afterPatient ctx pr.2 k t res pr.1
  | _, _, _, _ => .fault .typeError db

/-- One iteration of the risk_calculated loop (routes.py lines 310-381):
resolve the risk-type name, gate it against the permitted risk ids of the
token, run validate, len_data_items and check_types, then call
check_patient(firm_id, **res) - a call whose binding requires the snils,
user, birthday and gender keys of res and raises TypeError otherwise - and
continue with the post-patient steps. -/
def processItem (ctx : Ctx) (db : Db) (item : PyDict) : ItemRes :=
  match pget item "type" with
  | some (.pstr t) =>
    match kindOf t with
    | none => .abort 400 "This type of risk does not exist" db
    | some k =>
      if ctx.riskIndex t ∈ ctx.typeRisk then
        if validateFields k item then
          if lenDataItemsOk k item then
            match check_types_of k item with
            | .error m => .abort 400 m db
            | .ok res => patientCallStep ctx db k t res
          else .abort 400 "Too many arguments received" db
        else .abort 400 "Invalid request body" db
      else .abort 400 "This type of risk is not permitted for your token" db
  | x => .abort 400 ("The type of type_risk must be a string, not " ++ typeName x) db

/-- Outcome of the whole batch request. -/
inductive BatchRes where
  | ok (msgs : List String) (db : Db)
  | resp (code : ℕ) (msg : String)
  | fault (e : PyErr)
deriving DecidableEq, Repr

/-- The risk_calculated loop over the submitted items: a per-item abort
returns that error response for the whole request and discards every
accumulated message; an uncaught exception propagates; otherwise messages
accumulate in order. -/
def processBatch (ctx : Ctx) (db : Db) (items : List PyDict)
    (acc : List String) : BatchRes :=
  match items with
  | [] => .ok acc db
  | item :: rest =>
    match processItem ctx db item with
    | .proceed m db1 => processBatch ctx db1 rest (acc ++ [m])
    | .abort c m _ => .resp c m
    | .fault e _ => .fault e

/-! ### token_required (app/auth.py lines 13-78) -/

/-- What jwt.decode of a presented token yields. -/
inductive DecodeResult where
  | ok (methods : List String) (idFirm : ℤ) (typeRisk : List ℤ)
  | expired
  | immature
  | invalid
deriving DecidableEq, Repr

/-- A cached token record: the methods field can be absent. -/
structure CacheRecord where
  methods : Option (List String)
  idFirm : ℤ
  typeRisk : List ℤ
deriving DecidableEq, Repr

/-- Identity resolution outcome before the method gate. -/
inductive CredResolution where
  | reject (code : ℕ) (msg : String)
  | granted (methods : List String) (idFirm : ℤ) (typeRisk : List ℤ)
deriving DecidableEq, Repr

/-- Resolution of a present token: the cache record wins when present (with
a 403 when it lacks the methods field), otherwise the decode result is
classified into the three 401 rejections or grants access. -/
def resolveCredential (cached : Option CacheRecord) (decoded : DecodeResult) :
    CredResolution :=
  match cached with
  | some r =>
    match r.methods with
    | none => .reject 403
        "Token data is incomplete. Please contact support to check available methods."
    | some ms => .granted ms r.idFirm r.typeRisk
  | none =>
    match decoded with
    | .ok ms f tr => .granted ms f tr
    | .expired => .reject 401 "Token has expired"
    | .immature => .reject 401 "Token has not start yet"
    | .invalid => .reject 401 "Invalid token"

/-- A response of one of the routes. -/
inductive HttpOut where
  | resp (code : ℕ) (msg : String)
  | patientsJson (rows : List (PyVal × PyVal))
  | researchJson (rows : List PyDict)
  | risksJson (rows : List (PyVal × PyVal × Option String × ℚ × ℤ))
  | batch (msgs : List String)
  | fault (e : PyErr)

/-- The token_required decorator: a missing token is a 401, then the
credential resolves through cache or decode, then the invoked method name
must be among the allowed methods (403 otherwise) before the wrapped route
runs with the resolved firm id and permitted risk ids. -/
def token_required (token : Option String)
    (cacheGet : String → Option CacheRecord) (decode : String → DecodeResult)
    (methodName : String) (handler : ℤ → List ℤ → HttpOut) : HttpOut :=
  match token with
  | none => .resp 401 "Token is missing!"
  | some t =>
    match resolveCredential (cacheGet t) (decode t) with
    | .reject c m => .resp c m
    | .granted ms f tr =>
      if methodName ∈ ms then handler f tr
      else .resp 403 "Method not allowed!"

/-! ### The tenant-scoped read endpoints (app/routes.py) -/

/-- get_listOfEmployees query (lines 73-86): name and snils of the patients
rows whose id_firm is the authorized firm id. -/
def patientsList (rows : List PatientRow) (firmId : ℤ) : List (PyVal × PyVal) :=
  (rows.filter fun r => decide (r.idFirm = firmId)).map fun r => (r.name, r.snils)

/-- get_research query (lines 144-159): research rows of the authorized
firm inside the date window, rendered as the non-id columns with falsy
values dropped. -/
def researchList (rows : List ResearchRow) (firmId dFrom dTo : ℤ) : List PyDict :=
  (rows.filter fun r => decide (r.idFirm = firmId ∧ dFrom ≤ r.date ∧ r.date ≤ dTo)).map
    fun r => r.payload.filter fun kv => pyTruthy kv.2

/-- get_risks query (lines 217-239): risks rows of the authorized firm
inside the date window joined with the risk-type catalog name. -/
def riskList (rows : List RiskRow) (catalog : ℤ → Option String)
    (firmId dFrom dTo : ℤ) : List (PyVal × PyVal × Option String × ℚ × ℤ) :=
  (rows.filter fun r => decide (r.idFirm = firmId ∧ dFrom ≤ r.date ∧ r.date ≤ dTo)).map
    fun r => (r.name, r.birthday, catalog r.idType, r.risk, r.date)

/-- The patients_list route: token_required around the patients query,
which is filtered by the firm id the credential resolved to. -/
def get_listOfEmployees (db : Db) (token : Option String)
    (cacheGet : String → Option CacheRecord) (decode : String → DecodeResult) : HttpOut :=
  token_required token cacheGet decode "get_listOfEmployees"
    fun f _ => .patientsJson (patientsList db.patients f)

/-- The research_list route. -/
def get_research (db : Db) (dFrom dTo : ℤ) (token : Option String)
    (cacheGet : String → Option CacheRecord) (decode : String → DecodeResult) : HttpOut :=
  token_required token cacheGet decode "get_research"
    fun f _ => .researchJson (researchList db.research f dFrom dTo)

/-- The risk_list route. -/
def get_risks (db : Db) (catalog : ℤ → Option String) (dFrom dTo : ℤ)
    (token : Option String) (cacheGet : String → Option CacheRecord)
    (decode : String → DecodeResult) : HttpOut :=
  token_required token cacheGet decode "get_risks"
    fun f _ => .risksJson (riskList db.risks catalog f dFrom dTo)

/-- The calculate_risk route: token_required around the batch pipeline; the
context is built from the resolved firm id and permitted risk ids. -/
def risk_calculated (mkCtx : ℤ → List ℤ → Ctx) (db : Db) (items : List PyDict)
    (token : Option String) (cacheGet : String → Option CacheRecord)
    (decode : String → DecodeResult) : HttpOut :=
  token_required token cacheGet decode "risk_calculated"
    fun f tr =>
      match processBatch (mkCtx f tr) db items [] with
      | .ok msgs _ => .batch msgs
      | .resp c m => .resp c m
      | .fault e => .fault e

/-! ### Shared lemmas -/

/-- pget distributes over append: the left map wins when it has the key. -/
lemma pget_append (a b : PyDict) (key : String) :
    pget (a ++ b) key = match pget a key with | some v => some v | none => pget b key := by
  induction a with
  | nil => rfl
  | cons hd tl ih =>
    cases hd with
    | mk k v => by_cases h : k = key <;> simp [pget, h, ih]

/-- The validated base map never carries the user key. -/
lemma pget_baseMap_user (n : String) (bd : ℤ × ℤ × ℤ) (s g : String) (ra : Bool) :
    pget (baseMap n bd s g ra) "user" = none := by
  simp [baseMap, pget]

/-- The validated base map always carries the name key. -/
lemma pget_baseMap_name (n : String) (bd : ℤ × ℤ × ℤ) (s g : String) (ra : Bool) :
    pget (baseMap n bd s g ra) "name" = some (.pstr n) := by
  simp [baseMap, pget]

/-- Every successful base check produces exactly the base map shape. -/
lemma check_types_base_ok_shape {item base : PyDict}
    (h : check_types_base item = .ok base) :
    ∃ n bd s g ra, base = baseMap n bd s g ra := by
  unfold check_types_base at h
  repeat' split at h
  all_goals first
    | exact Except.noConfusion h
    | exact ⟨_, _, _, _, _, by injection h with h2; exact h2.symm⟩

/-- Every successful check_types of any of the three risk types returns
the base map extended by measurement keys, none of which is the user key. -/
lemma check_types_of_ok_shape {k : RiskKind} {item res : PyDict}
    (h : check_types_of k item = .ok res) :
    ∃ n bd s g ra ext, res = baseMap n bd s g ra ++ ext ∧ pget ext "user" = none := by
  cases k <;> simp only [check_types_of] at h <;>
    [unfold check_types_score at h;
     unfold check_types_kerdo at h;
     unfold check_types_kvaas at h] <;>
  · cases hb : check_types_base item with
    | error m => rw [hb] at h; exact Except.noConfusion h
    | ok base =>
      obtain ⟨n, bd, s, g, ra, hbase⟩ := check_types_base_ok_shape hb
      rw [hb, hbase] at h
      simp only [Except.bind] at h
      repeat' split at h
      all_goals try exact Except.noConfusion h
      injection h with h2
      exact ⟨n, bd, s, g, ra, _, h2.symm, by simp [pget]⟩

/-- Every validated map of any of the three risk types lacks the user key
and carries the name key. -/
lemma check_types_of_no_user {k : RiskKind} {item res : PyDict}
    (h : check_types_of k item = .ok res) :
    pget res "user" = none ∧ (pget res "name").isSome = true := by
  obtain ⟨n, bd, s, g, ra, ext, rfl, hu⟩ := check_types_of_ok_shape h
  constructor
  · simp [pget_append, pget_baseMap_user, hu]
  · simp [pget_append, pget_baseMap_name]

/-- With the user key absent from res, the check_patient call raises
TypeError for missing required positional argument. -/
lemma patientCallStep_user_none (ctx : Ctx) (db : Db) (k : RiskKind) (t : String)
    {res : PyDict} (h : pget res "user" = none) :
    patientCallStep ctx db k t res = .fault .typeError db := by
  rcases hs : pget res "snils" with _ | s <;> simp [patientCallStep, h, hs]

/-- The per-item pipeline never reaches the appended-message outcome. -/
lemma processItem_ne_proceed (ctx : Ctx) (db : Db) (item : PyDict)
    (m : String) (db1 : Db) : processItem ctx db item ≠ .proceed m db1 := by
  intro h
  unfold processItem at h
  repeat' split at h
  all_goals try exact ItemRes.noConfusion h
  rename_i hres
  rw [patientCallStep_user_none _ _ _ _ (check_types_of_no_user hres).1] at h
  exact ItemRes.noConfusion h

/-! ### C1: the score formula -/

/-- Written from the words of the claim, to be compared with
calculate_risk_score: age adjusted by the not-yet-occurred birthday rule,
the male and female constant quadruples, the cs and ncs survival terms,
smoking adding 0.71 and 0.63 to the two weighted sums, and the final
round(100 * ((1 - cs1) + (1 - ncs1)), 2). -/
def score_risk_spec (fexp : ℚ → ℚ) (fpow : ℚ → ℚ → ℚ)
    (ty tm td bdy bdm bdd : ℤ) (gender : String)
    (smoking blood_pressure : ℤ) (cholesterol : ℚ) : ℚ :=
  let age : ℚ := ((ty - bdy - (if tm < bdm ∨ (tm = bdm ∧ td < bdd) then 1 else 0) : ℤ) : ℚ)
  let c : ℚ × ℚ × ℚ × ℚ :=
    if gender = "male" then (-21.0, 4.62, -25.7, 5.47) else (-28.7, 6.23, -30.0, 6.42)
  let alpha := c.1
  let p := c.2.1
  let alpha2 := c.2.2.1
  let p2 := c.2.2.2
  let cs0 := fexp (-(fexp alpha) * fpow (age - 20) p)
  let cs10 := fexp (-(fexp alpha) * fpow (age - 10) p)
  let ncs0 := fexp (-(fexp alpha2) * fpow (age - 20) p2)
  let ncs10 := fexp (-(fexp alpha2) * fpow (age - 10) p2)
  let bsmCardio : ℚ := if smoking = 1 then 0.71 else 0
  let bsmNoncardio : ℚ := if smoking = 1 then 0.63 else 0
  let wc := 0.24 * (cholesterol - 6.0) + 0.018 * ((blood_pressure : ℚ) - 120) + bsmCardio
  let wnc := 0.02 * (cholesterol - 6.0) + 0.022 * ((blood_pressure : ℚ) - 120) + bsmNoncardio
  let cs1 := fpow cs10 (fexp wc) / fpow cs0 (fexp wc)
  let ncs1 := fpow ncs10 (fexp wnc) / fpow ncs0 (fexp wnc)
  round2 (100 * ((1 - cs1) + (1 - ncs1)))

/-- C1: for every validated score input (gender male or female, smoking 0
or 1), ScoreRiskValidator.calculate_risk computes exactly the claimed
closed formula: the age rule, the gender-selected constants, the cs and
ncs terms, the smoking additions 0.71 and 0.63, the weighted sums wc and
wnc, cs1 and ncs1 as quotients of powers, and the result rounded to two
decimals; being a pure function it returns identical output on identical
inputs. -/
theorem score_calculate_risk_matches_spec (fexp : ℚ → ℚ) (fpow : ℚ → ℚ → ℚ)
    (ty tm td bdy bdm bdd : ℤ) (gender : String)
    (smoking blood_pressure : ℤ) (cholesterol : ℚ)
    (hg : gender = "male" ∨ gender = "female")
    (hs : smoking = 0 ∨ smoking = 1) :
    calculate_risk_score fexp fpow ty tm td bdy bdm bdd gender
        smoking blood_pressure cholesterol
      = score_risk_spec fexp fpow ty tm td bdy bdm bdd gender
          smoking blood_pressure cholesterol := by
  rcases hg with rfl | rfl <;> rcases hs with rfl | rfl <;>
    simp [calculate_risk_score, score_risk_spec, ageAt, monthDayLt, pyLower] <;>
    norm_num

/-- Witness: the equality instantiated at a concrete validated input. -/
theorem score_calculate_risk_matches_spec_witness :
    calculate_risk_score (fun x => x) (fun a b => a + b)
        2026 10 12 1968 9 25 "male" 1 129 7.0
      = score_risk_spec (fun x => x) (fun a b => a + b)
          2026 10 12 1968 9 25 "male" 1 129 7.0 :=
  score_calculate_risk_matches_spec _ _ _ _ _ _ _ _ _ _ _ _ (Or.inl rfl) (Or.inr rfl)

/-! ### Concrete fixtures used by witnesses and counterexamples -/

/-- A concrete risk-name-to-id mapping (the type_risk catalog). -/
def riskIndex0 : String → ℤ :=
  fun t => if t = "score" then 1 else if t = "kerdo" then 2 else 3

/-- A concrete request context: tenant 1, all three risk ids permitted,
identity and addition standing in for the abstract float transcendentals,
no database failures. -/
def ctx0 : Ctx :=
  ⟨1, [1, 2, 3], riskIndex0, 2026, 10, 12, 777,
   fun x => x, fun a b => a + b, false, false, false⟩

/-- An empty store. -/
def db0 : Db := ⟨[], [], []⟩

/-- A validated kerdo map with pulse zero (diastolic 70). -/
def resKerdoP0 : PyDict :=
  baseMap "Ivanov" (1968, 9, 25) "123" "male" false ++
    [("diastolic_bp", .pint 70), ("pulse", .pint 0)]

/-- A validated kerdo map with diastolic 70 and pulse 100. -/
def resKerdo0 : PyDict :=
  baseMap "Ivanov" (1968, 9, 25) "123" "male" false ++
    [("diastolic_bp", .pint 70), ("pulse", .pint 100)]

/-- A well-formed kerdo request item. -/
def itemKerdo0 : PyDict :=
  [("name", .pstr "Ivanov"), ("birthday", .pstr "1968-09-25"),
   ("snils", .pstr "123"), ("gender", .pstr "male"),
   ("diastolic_bp", .pint 70), ("pulse", .pint 100), ("type", .pstr "kerdo")]

/-! ### C2: kerdo and kvaas division by zero -/

/-- C2: at pulse zero (kerdo) and at equal pressures (kvaas) the
calculators raise an unchecked ZeroDivisionError, and the route's blanket
exception handler turns the item into the generic 500 Internal server
error response shared by every computation failure: there is no distinct
checked ComputationFailure error anywhere in the code, contrary to the
claim. -/
theorem kerdo_kvaas_division_fault_generic_500 :
    calculate_risk_kerdo 70 0 = .error .zeroDivisionError ∧
    calculate_risk_kvaas 120 120 70 = .error .zeroDivisionError ∧
    ∃ dbx, afterPatient ctx0 db0 .kerdo "kerdo" resKerdoP0 (.pint 1)
      = .abort 500 "Internal server error" dbx :=
  ⟨rfl, rfl, _, rfl⟩

/-! ### C4: BaseValidator.check_types -/

/-- A base item whose name is the empty string and whose other fields are
valid. -/
def itemEmptyName : PyDict :=
  [("name", .pstr ""), ("birthday", .pstr "1968-09-25"), ("snils", .pstr "123"),
   ("gender", .pstr "male")]

/-- C4 counterexample: the claim requires a successful check_types to have
a non-empty name, but the source only checks isinstance(name, str): an
item with an empty-string name passes every check. -/
theorem check_types_accepts_empty_name :
    ¬ (∀ item res, check_types_base item = .ok res →
        ∃ n, pget item "name" = some (.pstr n) ∧ n ≠ "") := by
  intro hclaim
  obtain ⟨n, hn, hne⟩ := hclaim itemEmptyName
    (baseMap "" (1968, 9, 25) "123" "male" false) (by rfl)
  rw [show pget itemEmptyName "name" = some (.pstr "") from rfl] at hn
  injection hn with hv
  injection hv with hs
  exact hne hs.symm

def isStrOpt : Option PyVal → Bool
  | some (.pstr _) => true
  | _ => false

def strValOf : Option PyVal → String
  | some (.pstr s) => s
  | _ => ""

def isBoolOptDefault : Option PyVal → Bool
  | none => true
  | some (.pbool _) => true
  | _ => false

def boolValOf : Option PyVal → Bool
  | some (.pbool b) => b
  | _ => false

/-- The first failing check wins: scan (checkPassed, errorMessage) pairs in
order and report the message of the first failure. -/
def firstFailure : List (Bool × String) → Option String
  | [] => none
  | (ok, msg) :: rest => if ok then firstFailure rest else some msg

/-- Written from the words of the claim, amended at one point: name is
required to be a string (the source does not require it non-empty).  The
seven checks run in the claimed order - name a string, birthday a string,
birthday parseable, snils a string, gender a string, gender male or
female, return_answer absent (defaulting to false) or boolean - and the
first failing check produces the error; on success the validated map is
returned. -/
def check_types_base_spec (item : PyDict) : Except String PyDict :=
  let name := pget item "name"
  let bds := pget item "birthday"
  let sn := pget item "snils"
  let gd := pget item "gender"
  let ra := pget item "return_answer"
  match firstFailure
      [(isStrOpt name, msgNameType name),
       (isStrOpt bds, msgBirthdayType bds),
       ((parseDate (strValOf bds)).isSome, msgBirthdayFormat),
       (isStrOpt sn, msgSnilsType sn),
       (isStrOpt gd, msgGenderType gd),
       (decide (strValOf gd = "male" ∨ strValOf gd = "female"), msgGenderValue),
       (isBoolOptDefault ra, msgReturnAnswerType ra)] with
  | some m => .error m
  | none => .ok (baseMap (strValOf name) ((parseDate (strValOf bds)).getD (1, 1, 1))
      (strValOf sn) (strValOf gd) (boolValOf ra))

/-- C4 amended: BaseValidator.check_types equals the first-failure-wins
checker over the claimed checks in the claimed order, with name only
required to be a string: it accepts exactly when name, birthday, snils and
gender are strings, the birthday parses as a date, the gender is male or
female, and return_answer is absent or boolean; any violation returns the
error payload of the first failing check. -/
theorem check_types_base_first_failure (item : PyDict) :
    check_types_base item = check_types_base_spec item := by
  unfold check_types_base check_types_base_spec
  rcases hv1 : pget item "name" with _ | v1
  · simp [hv1, firstFailure, isStrOpt]
  cases v1 <;> try (simp [hv1, firstFailure, isStrOpt]; done)
  rcases hv2 : pget item "birthday" with _ | v2
  · simp [hv1, hv2, firstFailure, isStrOpt]
  cases v2 <;> try (simp [hv1, hv2, firstFailure, isStrOpt]; done)
  rename_i n1 b2
  rcases hp : parseDate b2 with _ | bd
  · simp [hv1, hv2, hp, firstFailure, isStrOpt, strValOf]
  rcases hv3 : pget item "snils" with _ | v3
  · simp [hv1, hv2, hv3, hp, firstFailure, isStrOpt, strValOf]
  cases v3 <;> try (simp [hv1, hv2, hv3, hp, firstFailure, isStrOpt, strValOf]; done)
  rcases hv4 : pget item "gender" with _ | v4
  · simp [hv1, hv2, hv3, hv4, hp, firstFailure, isStrOpt, strValOf]
  cases v4 <;> try (simp [hv1, hv2, hv3, hv4, hp, firstFailure, isStrOpt, strValOf]; done)
  rename_i s3 g4
  by_cases hmf : g4 = "male" ∨ g4 = "female"
  · rcases hv5 : pget item "return_answer" with _ | v5
    · simp [hv1, hv2, hv3, hv4, hv5, hp, hmf, firstFailure, isStrOpt, strValOf,
            isBoolOptDefault, boolValOf]
    cases v5 <;>
      simp [hv1, hv2, hv3, hv4, hv5, hp, hmf, firstFailure, isStrOpt, strValOf,
            isBoolOptDefault, boolValOf]
  · simp [hv1, hv2, hv3, hv4, hp, hmf, firstFailure, isStrOpt, strValOf]

/-! ### C5: the two authorization gates -/

/-- C5: once the credential resolves to an identity, the request proceeds
only when the invoked method name is in the allowed_methods of the
credential, a violation being the 403 Method not allowed response; and
inside the risk pipeline every item whose resolved risk id is not among
the permitted risk ids of the token is rejected with the message that this
type of risk is not permitted, before any later step of the item runs. -/
theorem auth_gates_enforced :
    (∀ (t : String) (cacheGet : String → Option CacheRecord)
       (decode : String → DecodeResult) (methodName : String)
       (handler : ℤ → List ℤ → HttpOut) (ms : List String) (f : ℤ) (tr : List ℤ),
       resolveCredential (cacheGet t) (decode t) = .granted ms f tr →
       methodName ∉ ms →
       token_required (some t) cacheGet decode methodName handler
         = .resp 403 "Method not allowed!") ∧
    (∀ (ctx : Ctx) (db : Db) (item : PyDict) (t : String) (k : RiskKind),
       pget item "type" = some (.pstr t) → kindOf t = some k →
       ctx.riskIndex t ∉ ctx.typeRisk →
       processItem ctx db item
         = .abort 400 "This type of risk is not permitted for your token" db) := by
  constructor
  · intro t cg dec mn handler ms f tr hres hnm
    simp [token_required, hres, hnm]
  · intro ctx db item t k ht hk hnotin
    simp [processItem, ht, hk, hnotin]

/-- A context whose token permits no risk id at all. -/
def ctxNoRisks : Ctx :=
  ⟨1, [], riskIndex0, 2026, 10, 12, 777, fun x => x, fun a b => a + b,
   false, false, false⟩

/-- Witness: both gates rejecting at concrete inputs. -/
theorem auth_gates_enforced_witness :
    token_required (some "tok") (fun _ => some ⟨some ["get_research"], 1, [1]⟩)
        (fun _ => .invalid) "risk_calculated" (fun _ _ => .batch [])
      = .resp 403 "Method not allowed!" ∧
    processItem ctxNoRisks db0 itemKerdo0
      = .abort 400 "This type of risk is not permitted for your token" db0 :=
  ⟨auth_gates_enforced.1 "tok" _ _ "risk_calculated" _ ["get_research"] 1 [1]
      rfl (by decide),
   auth_gates_enforced.2 ctxNoRisks db0 itemKerdo0 "kerdo" .kerdo rfl rfl (by decide)⟩

/-! ### C6: the per-item success message -/

/-- C6: whenever the post-patient steps of an item complete, the appended
per-item message is exactly the risk_score message carrying the snils and
the rounded risk when return_answer is truthy, and exactly the sent
successfully message carrying the snils otherwise: the flag alone selects
between the two. -/
theorem success_message_by_return_answer (ctx : Ctx) (db : Db) (k : RiskKind)
    (t : String) (res : PyDict) (pid u b ra sn : PyVal) (q : ℚ)
    (hq : calcRiskFromRes ctx k res = .ok q)
    (hu : pget res "user" = some u) (hb : pget res "birthday" = some b)
    (hra : pget res "return_answer" = some ra) (hsn : pget res "snils" = some sn) :
    afterPatient ctx db k t res pid
      = .proceed
          (if pyTruthy ra then
            "risk_score for user snils " ++ pyStrOf sn ++ " = " ++ floatRepr (round2 q)
           else "data for user snils " ++ pyStrOf sn ++ " has been sent successfully")
          (add_risk ctx.dbRiskFails
            (add_research_step ctx.dbResearchFails db
              (mkResearchRow ctx.firmId (ctx.riskIndex t) ctx.nowTs k pid res))
            ⟨ctx.firmId, ctx.riskIndex t, pid, u, b, round2 q, ctx.nowTs⟩) := by
  unfold afterPatient
  rw [hq, hu, hb, hra, hsn]
  by_cases hpt : pyTruthy ra = true <;> simp [hpt]

/-- A validated kerdo map extended (hypothetically) with the user key the
pipeline would need, and return_answer true. -/
def resKerdoU : PyDict :=
  [("name", .pstr "Ivanov"), ("birthday", .pdate 1968 9 25), ("snils", .pstr "123"),
   ("gender", .pstr "male"), ("return_answer", .pbool true),
   ("diastolic_bp", .pint 70), ("pulse", .pint 100), ("user", .pstr "Ivanov")]

/-- The kerdo index value of diastolic 70 and pulse 100 (equal to 30). -/
def qKerdo0 : ℚ := 100 * (1 - ((70 : ℤ) : ℚ) / ((100 : ℤ) : ℚ))

/-- Witness: the message at a concrete successful kerdo item. -/
theorem success_message_by_return_answer_witness :
    afterPatient ctx0 db0 .kerdo "kerdo" resKerdoU (.pint 1)
      = .proceed
          (if pyTruthy (.pbool true) then
            "risk_score for user snils " ++ pyStrOf (.pstr "123") ++ " = "
              ++ floatRepr (round2 qKerdo0)
           else "data for user snils " ++ pyStrOf (.pstr "123")
              ++ " has been sent successfully")
          (add_risk ctx0.dbRiskFails
            (add_research_step ctx0.dbResearchFails db0
              (mkResearchRow ctx0.firmId (ctx0.riskIndex "kerdo") ctx0.nowTs .kerdo
                (.pint 1) resKerdoU))
            ⟨ctx0.firmId, ctx0.riskIndex "kerdo", .pint 1, .pstr "Ivanov",
             .pdate 1968 9 25, round2 qKerdo0, ctx0.nowTs⟩) :=
  success_message_by_return_answer ctx0 db0 .kerdo "kerdo" resKerdoU (.pint 1)
    (.pstr "Ivanov") (.pdate 1968 9 25) (.pbool true) (.pstr "123") qKerdo0
    (by rfl) (by rfl) (by rfl) (by rfl) (by rfl)

/-! ### C7: tenant scoping of every read -/

/-- C7: each of the four reads performed on behalf of a request filters by
the tenant id resolved from the credential: rows of other tenants never
influence the result (appending foreign rows leaves each query unchanged,
and every row contributing to a response belongs to the authorized
tenant), and the patients endpoint wired through token_required queries
exactly with the credential tenant id, not any client-supplied value. -/
theorem tenant_scoped_reads :
    (∀ (rows extra : List PatientRow) (f : ℤ),
       (∀ r ∈ extra, r.idFirm ≠ f) →
       patientsList (rows ++ extra) f = patientsList rows f) ∧
    (∀ (rows extra : List ResearchRow) (f dFrom dTo : ℤ),
       (∀ r ∈ extra, r.idFirm ≠ f) →
       researchList (rows ++ extra) f dFrom dTo = researchList rows f dFrom dTo) ∧
    (∀ (rows extra : List RiskRow) (catalog : ℤ → Option String) (f dFrom dTo : ℤ),
       (∀ r ∈ extra, r.idFirm ≠ f) →
       riskList (rows ++ extra) catalog f dFrom dTo = riskList rows catalog f dFrom dTo) ∧
    (∀ (rows extra : List PatientRow) (f : ℤ) (s : PyVal),
       (∀ r ∈ extra, r.idFirm ≠ f) →
       lookupPatientId (rows ++ extra) s f = lookupPatientId rows s f ∧
       countPatients (rows ++ extra) s f = countPatients rows s f) ∧
    (∀ (rows : List PatientRow) (f : ℤ) (r : PatientRow),
       r ∈ rows.filter (fun rr => decide (rr.idFirm = f)) → r.idFirm = f) ∧
    (∀ (db : Db) (t : String) (cg : String → Option CacheRecord)
       (dec : String → DecodeResult) (ms : List String) (f : ℤ) (tr : List ℤ),
       resolveCredential (cg t) (dec t) = .granted ms f tr →
       "get_listOfEmployees" ∈ ms →
       get_listOfEmployees db (some t) cg dec
         = .patientsJson (patientsList db.patients f)) := by
  refine ⟨?_, ?_, ?_, ?_, ?_, ?_⟩
  · intro rows extra f hex
    have hnil : extra.filter (fun r => decide (r.idFirm = f)) = [] :=
      List.filter_eq_nil_iff.mpr (by simpa using hex)
    unfold patientsList
    rw [List.filter_append, hnil]
    simp
  · intro rows extra f dFrom dTo hex
    have hnil : extra.filter
        (fun r => decide (r.idFirm = f ∧ dFrom ≤ r.date ∧ r.date ≤ dTo)) = [] := by
      refine List.filter_eq_nil_iff.mpr ?_
      intro a ha
      simp
      exact fun h => absurd h (hex a ha)
    unfold researchList
    rw [List.filter_append, hnil]
    simp
  · intro rows extra catalog f dFrom dTo hex
    have hnil : extra.filter
        (fun r => decide (r.idFirm = f ∧ dFrom ≤ r.date ∧ r.date ≤ dTo)) = [] := by
      refine List.filter_eq_nil_iff.mpr ?_
      intro a ha
      simp
      exact fun h => absurd h (hex a ha)
    unfold riskList
    rw [List.filter_append, hnil]
    simp
  · intro rows extra f s hex
    have hnil : extra.filter (fun r => decide (r.snils = s ∧ r.idFirm = f)) = [] := by
      refine List.filter_eq_nil_iff.mpr ?_
      intro a ha
      simp
      exact fun _ h => absurd h (hex a ha)
    unfold lookupPatientId countPatients
    rw [List.filter_append, hnil]
    simp
  · intro rows f r hr
    have := List.of_mem_filter hr
    simpa using this
  · intro db t cg dec ms f tr hres hmem
    simp [get_listOfEmployees, token_required, hres, hmem]

/-- A patients table holding one row of tenant 1 and one of tenant 2. -/
def patientsMix : List PatientRow :=
  [⟨1, .pstr "A", .pdate 1970 1 1, .pstr "male", .pstr "111", 1⟩]

def patientsForeign : List PatientRow :=
  [⟨2, .pstr "B", .pdate 1980 2 2, .pstr "female", .pstr "222", 2⟩]

/-- Witness: tenant 1 sees the same patients list with or without the rows
of tenant 2 in the store. -/
theorem tenant_scoped_reads_witness :
    patientsList (patientsMix ++ patientsForeign) 1 = patientsList patientsMix 1 :=
  tenant_scoped_reads.1 patientsMix patientsForeign 1 (by decide)

/-! ### C8: idempotence of the patient identity resolver -/

/-- C8: calling check_patient twice in sequence (database healthy) returns
the same patient id both times and the second call performs no insert; the
first call inserts the patient row exactly when no row with that snils and
tenant pair exists, and otherwise leaves the store unchanged. -/
theorem check_patient_idempotent (db : Db) (f : ℤ) (s u b g : PyVal) :
    (check_patient false (check_patient false db f s u b g).2 f s u b g).1
      = (check_patient false db f s u b g).1 ∧
    (check_patient false (check_patient false db f s u b g).2 f s u b g).2
      = (check_patient false db f s u b g).2 ∧
    (countPatients db.patients s f = 0 →
      (check_patient false db f s u b g).2.patients
        = db.patients ++ [⟨nextPatientId db.patients, u, b, g, s, f⟩]) ∧
    (countPatients db.patients s f ≠ 0 → (check_patient false db f s u b g).2 = db) := by
  by_cases h0 : countPatients db.patients s f = 0
  · have hc1 : countPatients
        (db.patients ++ [⟨nextPatientId db.patients, u, b, g, s, f⟩]) s f ≠ 0 := by
      unfold countPatients
      rw [List.filter_append]
      simp [countPatients] at h0 ⊢
    refine ⟨?_, ?_, fun _ => ?_, fun hne => absurd h0 hne⟩ <;>
      simp [check_patient, h0, hc1]
  · refine ⟨?_, ?_, fun he => absurd he h0, fun _ => ?_⟩ <;>
      simp [check_patient, h0]

/-- Witness: on the empty store the first call inserts the new patient row. -/
theorem check_patient_idempotent_witness :
    (check_patient false db0 1 (.pstr "123") (.pstr "Ivanov")
        (.pdate 1968 9 25) (.pstr "male")).2.patients
      = db0.patients ++ [⟨nextPatientId db0.patients, .pstr "Ivanov",
          .pdate 1968 9 25, .pstr "male", .pstr "123", 1⟩] :=
  (check_patient_idempotent db0 1 (.pstr "123") (.pstr "Ivanov")
      (.pdate 1968 9 25) (.pstr "male")).2.2.1 (by decide)

/-! ### C9: the success path is dead code -/

/-- C9: the validated map of every item that passes validate,
len_data_items and check_types carries the name key and never the user
key, so the check_patient(firm_id, **res) call of the orchestrator raises
the missing-argument TypeError on every such item; consequently no batch
run ever appends a per-item message: the success path of risk_calculated
is unreachable for every input. -/
theorem success_path_unreachable :
    (∀ (k : RiskKind) (item res : PyDict), check_types_of k item = .ok res →
       pget res "user" = none ∧ (pget res "name").isSome = true) ∧
    (∀ (ctx : Ctx) (db : Db) (item : PyDict) (t : String) (k : RiskKind) (res : PyDict),
       pget item "type" = some (.pstr t) → kindOf t = some k →
       ctx.riskIndex t ∈ ctx.typeRisk →
       validateFields k item = true → lenDataItemsOk k item = true →
       check_types_of k item = .ok res →
       processItem ctx db item = .fault .typeError db) ∧
    (∀ (ctx : Ctx) (db : Db) (items : List PyDict) (acc msgs : List String) (db1 : Db),
       processBatch ctx db items acc = .ok msgs db1 → msgs = acc) := by
  refine ⟨fun k item res h => check_types_of_no_user h, ?_, ?_⟩
  · intro ctx db item t k res ht hk hmem hv hl hct
    have hstep : patientCallStep ctx db k t res = .fault .typeError db :=
      patientCallStep_user_none ctx db k t (check_types_of_no_user hct).1
    simp [processItem, ht, hk, hmem, hv, hl, hct, hstep]
  · intro ctx db items acc msgs db1 h
    cases items with
    | nil =>
      unfold processBatch at h
      injection h with h1 h2
      exact h1.symm
    | cons item rest =>
      unfold processBatch at h
      cases hpi : processItem ctx db item with
      | proceed m dbx => exact absurd hpi (processItem_ne_proceed ctx db item m dbx)
      | abort c m dbx => rw [hpi] at h; exact BatchRes.noConfusion h
      | fault e dbx => rw [hpi] at h; exact BatchRes.noConfusion h

/-- Witness: a fully valid kerdo item faults with TypeError at the
check_patient call (its validated map is resKerdo0, which has name but no
user key). -/
theorem success_path_unreachable_witness :
    processItem ctx0 db0 itemKerdo0 = .fault .typeError db0 :=
  success_path_unreachable.2.1 ctx0 db0 itemKerdo0 "kerdo" .kerdo resKerdo0
    (by rfl) (by rfl) (by decide) (by rfl) (by rfl) (by rfl)

/-! ### C3: batch abort semantics -/

/-- A context whose research insert fails (the try block of routes.py
lines 358-364 catches it and only logs). -/
def ctxResearchFail : Ctx :=
  ⟨1, [1, 2, 3], riskIndex0, 2026, 10, 12, 777, fun x => x, fun a b => a + b,
   false, true, false⟩

/-- C3 counterexample: a failing Research insert does not abort the item:
the pipeline continues through computation, the risk insert and the
message step and still produces a per-item success message, while the
research table received nothing - contradicting the claim that a failure
on any step aborts the whole batch with no result and no later step. -/
theorem research_failure_not_aborting :
    ∃ msg dbx, afterPatient ctxResearchFail db0 .kerdo "kerdo" resKerdoU (.pint 1)
        = .proceed msg dbx ∧ dbx.research = db0.research :=
  ⟨_, _, rfl, rfl⟩

/-- C3 amended: failures at risk-type resolution, authorization,
validation or risk computation abort the whole batch immediately with an
error response and no per-item results (an uncaught exception likewise
ends the batch with no results); but a patient-resolution database error
is converted to a returned error pair instead of aborting, a failing
Research insert is caught, logged and skipped with the pipeline
continuing, and a database failure inside add_risk is swallowed. -/
theorem batch_abort_semantics_amended :
    (∀ (ctx : Ctx) (db : Db) (item : PyDict) (rest : List PyDict)
       (acc : List String) (c : ℕ) (m : String) (dbx : Db),
       processItem ctx db item = .abort c m dbx →
       processBatch ctx db (item :: rest) acc = .resp c m) ∧
    (∀ (ctx : Ctx) (db : Db) (item : PyDict) (rest : List PyDict)
       (acc : List String) (e : PyErr) (dbx : Db),
       processItem ctx db item = .fault e dbx →
       processBatch ctx db (item :: rest) acc = .fault e) ∧
    (∀ (ctx : Ctx) (db : Db) (k : RiskKind) (t : String) (res : PyDict)
       (pid : PyVal) (e : PyErr),
       calcRiskFromRes ctx k res = .error e →
       afterPatient ctx db k t res pid
         = .abort 500 "Internal server error"
             (add_research_step ctx.dbResearchFails db
               (mkResearchRow ctx.firmId (ctx.riskIndex t) ctx.nowTs k pid res))) ∧
    (∀ (db : Db) (f : ℤ) (s u b g : PyVal),
       check_patient true db f s u b g = (.perrPair "Internal server error" 500, db)) ∧
    (∀ (db : Db) (row : ResearchRow), add_research_step true db row = db) ∧
    (∀ (db : Db) (row : RiskRow), add_risk true db row = db) := by
  refine ⟨?_, ?_, ?_, fun db f s u b g => rfl, fun db row => rfl, fun db row => rfl⟩
  · intro ctx db item rest acc c m dbx h
    unfold processBatch
    rw [h]
  · intro ctx db item rest acc e dbx h
    unfold processBatch
    rw [h]
  · intro ctx db k t res pid e h
    unfold afterPatient
    rw [h]

/-- Witness: a batch whose first item carries a non-string type aborts
with the 400 response and an empty result list. -/
theorem batch_abort_semantics_amended_witness :
    processBatch ctx0 db0 ([("type", PyVal.pint 5)] :: []) []
      = .resp 400 ("The type of type_risk must be a string, not "
          ++ typeName (some (.pint 5))) :=
  batch_abort_semantics_amended.1 ctx0 db0 [("type", PyVal.pint 5)] [] [] 400
    ("The type of type_risk must be a string, not " ++ typeName (some (.pint 5)))
    db0 (by rfl)

/-! ### C10: patient-resolution database errors -/

/-- C10: when the database errors during patient resolution, check_patient
does not raise: it catches the exception and returns the (response, 500)
pair in place of a patient id, leaving the store untouched; and the
orchestrator does not abort the item: it binds whatever check_patient
returned to id_patient without inspecting it and continues, so the pair is
the id_patient argument of the Research row handed to the research-insert
step and of the Risk row handed to add_risk, and the item still reaches
its message step.  (In the real driver a parameterized insert cannot bind
the pair, so the research insert fails and is swallowed by the try/except
of routes.py lines 358-364: that is the failing-flag instance of the
conclusion, which is parametric in both insert-failure flags; either way
the pipeline continues.) -/
theorem patient_db_error_pair_flows :
    (∀ (db : Db) (f : ℤ) (s u b g : PyVal),
       check_patient true db f s u b g = (.perrPair "Internal server error" 500, db)) ∧
    (∀ (ctx : Ctx) (db : Db) (k : RiskKind) (t : String) (res : PyDict)
       (u b ra sn : PyVal) (q : ℚ),
       calcRiskFromRes ctx k res = .ok q →
       pget res "user" = some u → pget res "birthday" = some b →
       pget res "return_answer" = some ra → pget res "snils" = some sn →
       afterPatient ctx db k t res (.perrPair "Internal server error" 500)
         = .proceed
             (if pyTruthy ra then
               "risk_score for user snils " ++ pyStrOf sn ++ " = "
                 ++ floatRepr (round2 q)
              else "data for user snils " ++ pyStrOf sn
                 ++ " has been sent successfully")
             (add_risk ctx.dbRiskFails
               (add_research_step ctx.dbResearchFails db
                 (mkResearchRow ctx.firmId (ctx.riskIndex t) ctx.nowTs k
                   (.perrPair "Internal server error" 500) res))
               ⟨ctx.firmId, ctx.riskIndex t, .perrPair "Internal server error" 500,
                u, b, round2 q, ctx.nowTs⟩)) := by
  refine ⟨fun db f s u b g => rfl, ?_⟩
  intro ctx db k t res u b ra sn q hq hu hb hra hsn
  unfold afterPatient
  rw [hq, hu, hb, hra, hsn]
  by_cases hpt : pyTruthy ra = true <;> simp [hpt]

/-- Witness: the pair flowing through a concrete kerdo map that binds the
user key. -/
theorem patient_db_error_pair_flows_witness :
    afterPatient ctx0 db0 .kerdo "kerdo" resKerdoU
        (.perrPair "Internal server error" 500)
      = .proceed
          (if pyTruthy (.pbool true) then
            "risk_score for user snils " ++ pyStrOf (.pstr "123") ++ " = "
              ++ floatRepr (round2 qKerdo0)
           else "data for user snils " ++ pyStrOf (.pstr "123")
              ++ " has been sent successfully")
          (add_risk ctx0.dbRiskFails
            (add_research_step ctx0.dbResearchFails db0
              (mkResearchRow ctx0.firmId (ctx0.riskIndex "kerdo") ctx0.nowTs .kerdo
                (.perrPair "Internal server error" 500) resKerdoU))
            ⟨ctx0.firmId, ctx0.riskIndex "kerdo",
             .perrPair "Internal server error" 500, .pstr "Ivanov",
             .pdate 1968 9 25, round2 qKerdo0, ctx0.nowTs⟩) :=
  patient_db_error_pair_flows.2 ctx0 db0 .kerdo "kerdo" resKerdoU
    (.pstr "Ivanov") (.pdate 1968 9 25) (.pbool true) (.pstr "123") qKerdo0
    (by rfl) (by rfl) (by rfl) (by rfl) (by rfl)

end RisksAPI
